import Mathlib

/-!
Verification of the pyfaye Bayeux client core against its specification.

The Python source is shallowly embedded: `dict[str, Any]` values appearing on
the wire are modelled by the inductive `JVal`, Python `None` by `JVal.null`
(or by `Option.none` for fields typed `str | None` / `bool | None`), and
dictionaries by association lists with unique keys in insertion order.
Exceptions are modelled by `Except` / an explicit error component carrying the
exception class and message.
-/

/-- A JSON-ish Python value as it appears in Bayeux wire dictionaries.
`null` stands for Python `None`. -/
inductive JVal where
  | s (v : String)
  | n (v : Int)
  | b (v : Bool)
  | null
  | obj (l : List (String × JVal))
  | arr (l : List JVal)

mutual

/-- Decidable equality for `JVal` (the nested inductive defeats `deriving`). -/
def JVal.decEq (x y : JVal) : Decidable (x = y) :=
  match x, y with
  | .s u, .s w =>
    if h : u = w then .isTrue (by rw [h]) else .isFalse (by intro hc; cases hc; exact h rfl)
  | .n u, .n w =>
    if h : u = w then .isTrue (by rw [h]) else .isFalse (by intro hc; cases hc; exact h rfl)
  | .b u, .b w =>
    if h : u = w then .isTrue (by rw [h]) else .isFalse (by intro hc; cases hc; exact h rfl)
  | .null, .null => .isTrue rfl
  | .obj u, .obj w =>
    match JVal.decEqPairs u w with
    | .isTrue h => .isTrue (by rw [h])
    | .isFalse h => .isFalse (by intro hc; injection hc; contradiction)
  | .arr u, .arr w =>
    match JVal.decEqElems u w with
    | .isTrue h => .isTrue (by rw [h])
    | .isFalse h => .isFalse (by intro hc; injection hc; contradiction)
  | .s _, .n _ | .s _, .b _ | .s _, .null | .s _, .obj _ | .s _, .arr _ =>
    .isFalse (by intro h; cases h)
  | .n _, .s _ | .n _, .b _ | .n _, .null | .n _, .obj _ | .n _, .arr _ =>
    .isFalse (by intro h; cases h)
  | .b _, .s _ | .b _, .n _ | .b _, .null | .b _, .obj _ | .b _, .arr _ =>
    .isFalse (by intro h; cases h)
  | .null, .s _ | .null, .n _ | .null, .b _ | .null, .obj _ | .null, .arr _ =>
    .isFalse (by intro h; cases h)
  | .obj _, .s _ | .obj _, .n _ | .obj _, .b _ | .obj _, .null | .obj _, .arr _ =>
    .isFalse (by intro h; cases h)
  | .arr _, .s _ | .arr _, .n _ | .arr _, .b _ | .arr _, .null | .arr _, .obj _ =>
    .isFalse (by intro h; cases h)

/-- Decidable equality for dict item lists. -/
def JVal.decEqPairs (x y : List (String × JVal)) : Decidable (x = y) :=
  match x, y with
  | [], [] => .isTrue rfl
  | [], _ :: _ => .isFalse (by intro h; cases h)
  | _ :: _, [] => .isFalse (by intro h; cases h)
  | (k1, v1) :: r1, (k2, v2) :: r2 =>
    if hk : k1 = k2 then
      match JVal.decEq v1 v2 with
      | .isTrue hv =>
        match JVal.decEqPairs r1 r2 with
        | .isTrue hr => .isTrue (by rw [hk, hv, hr])
        | .isFalse hr => .isFalse (by intro hc; injection hc; contradiction)
      | .isFalse hv =>
        .isFalse (by
          intro hc; injection hc with h1 h2
          exact hv (congrArg Prod.snd h1))
    else
      .isFalse (by
        intro hc; injection hc with h1 h2
        exact hk (congrArg Prod.fst h1))

/-- Decidable equality for value lists. -/
def JVal.decEqElems (x y : List JVal) : Decidable (x = y) :=
  match x, y with
  | [], [] => .isTrue rfl
  | [], _ :: _ => .isFalse (by intro h; cases h)
  | _ :: _, [] => .isFalse (by intro h; cases h)
  | v1 :: r1, v2 :: r2 =>
    match JVal.decEq v1 v2 with
    | .isTrue hv =>
      match JVal.decEqElems r1 r2 with
      | .isTrue hr => .isTrue (by rw [hv, hr])
      | .isFalse hr => .isFalse (by intro hc; injection hc; contradiction)
    | .isFalse hv => .isFalse (by intro hc; injection hc; contradiction)

end

instance : DecidableEq JVal := JVal.decEq

/-- `v is None` for a Python value. -/
def JVal.isNull : JVal → Bool
  | .null => true
  | _ => false

mutual

/-- Python `repr` of a value (`str` falls back to `repr` for non-strings). -/
def pyRepr : JVal → String
  | .s v => "\x27" ++ v ++ "\x27"
  | .n i => toString i
  | .b true => "True"
  | .b false => "False"
  | .null => "None"
  | .obj l => "\x7b" ++ pyReprPairs l ++ "\x7d"
  | .arr l => "[" ++ pyReprElems l ++ "]"

/-- `repr` of the key/value items of a dict. -/
def pyReprPairs : List (String × JVal) → String
  | [] => ""
  | [(k, v)] => "\x27" ++ k ++ "\x27: " ++ pyRepr v
  | (k, v) :: rest => "\x27" ++ k ++ "\x27: " ++ pyRepr v ++ ", " ++ pyReprPairs rest

/-- `repr` of the elements of a list. -/
def pyReprElems : List JVal → String
  | [] => ""
  | [v] => pyRepr v
  | v :: rest => pyRepr v ++ ", " ++ pyReprElems rest

end

/-- Python `str()` applied to a value: identity on strings, `repr` otherwise. -/
def pyStr : JVal → String
  | .s v => v
  | v => pyRepr v

/-- Python truthiness of a value (`bool(v)`). -/
def pyTruthy : JVal → Bool
  | .s v => v != ""
  | .n i => i != 0
  | .b b => b
  | .null => false
  | .obj [] => false
  | .obj _ => true
  | .arr [] => false
  | .arr _ => true

/-- Truthiness of a `str | None` field: `None` and `""` are falsy. -/
def pyTruthyOptStr : Option String → Bool
  | none => false
  | some s => s != ""

/-- `str(x)` for a `str | None` value interpolated into an f-string. -/
def pyStrOpt : Option String → String
  | none => "None"
  | some s => s

/-- Key lookup in a Python dict modelled as an association list. -/
def dictGet : List (String × JVal) → String → Option JVal
  | [], _ => none
  | p :: rest, k => if p.1 = k then some p.2 else dictGet rest k

/-- `k in d` for a Python dict. -/
def dictHas (d : List (String × JVal)) (k : String) : Bool :=
  (dictGet d k).isSome

/-- `d.update(u)`: existing keys keep their position and take the new value,
new keys are appended in `u`'s order. -/
def dictUpdate (d u : List (String × JVal)) : List (String × JVal) :=
  d.map (fun p => (p.1, (dictGet u p.1).getD p.2)) ++
    u.filter (fun p => !(dictHas d p.1))

/-- Key lookup in the subscription registry. -/
def dictGetNat : List (String × Nat) → String → Option Nat
  | [], _ => none
  | p :: rest, k => if p.1 = k then some p.2 else dictGetNat rest k

/-- `d[k] = v` for a Python dict: overwrite in place, else append. -/
def dictSetNat (d : List (String × Nat)) (k : String) (v : Nat) : List (String × Nat) :=
  if (dictGetNat d k).isSome then
    d.map (fun p => if p.1 = k then (k, v) else p)
  else
    d ++ [(k, v)]

/-- `d.pop(k, default)`: the value at `k` (or the default) and the dict with
`k` removed. -/
def dictPopD (d : List (String × JVal)) (k : String) (dflt : JVal) :
    JVal × List (String × JVal) :=
  match dictGet d k with
  | some v => (v, d.filter (fun p => p.1 ≠ k))
  | none => (dflt, d)

/-- `str.split(sep)` for a one-character separator, as in CPython: the
chunks between separator occurrences, including empty chunks at the ends. -/
def pySplitAux (sep : Char) : List Char → List Char → List String
  | [], acc => [String.mk acc.reverse]
  | c :: rest, acc =>
    if c = sep then String.mk acc.reverse :: pySplitAux sep rest []
    else pySplitAux sep rest (c :: acc)

/-- `s.split(sep)` (single-character separator). -/
def pySplit (s : String) (sep : Char) : List String :=
  pySplitAux sep s.toList []

/-- `s.startswith(pre)`. -/
def pyStartsWith (s pre : String) : Bool :=
  pre.toList.isPrefixOf s.toList

/-- `c in s` for a single character `c`. -/
def pyContainsChar (s : String) (c : Char) : Bool :=
  s.toList.contains c

/-- `s.lower()` (ASCII case folding; the source only lowers ASCII transport
names). -/
def pyToLower (s : String) : String :=
  String.mk (s.toList.map Char.toLower)

/-- `faye.protocol.message.Message` after `__init__`: exactly the attributes
the custom `__init__` stores in the instance dictionary.  The dataclass
declares further fields (`version`, `connection_type`, `timestamp`, `retry`,
`interval`, `timeout`, ...) but the custom `__init__` never assigns them, so
on every constructed instance they hold the class-level defaults and are the
same for all instances; they are therefore omitted here.  `ext` and `advice`
are declared `dict | None` in the source, hence `Option` here. -/
structure Message where
  channel : String
  id : String
  client_id : Option String
  successful : Option Bool
  error : Option String
  data : JVal
  ext : Option (List (String × JVal))
  advice : Option (List (String × JVal))
  connection_types : List String
  subscription : Option String
deriving DecidableEq

/-- `Message.__init__(channel, **kwargs)`.  `freshId` stands for the
`str(uuid4())` generated when no `id` kwarg is given. -/
def mkMessage (freshId : String) (channel : String)
    (kwargs : List (String × JVal)) : Message :=
  let get := fun k => (dictGet kwargs k).getD .null
  let ct1 := get "supportedConnectionTypes"
  let ct := if pyTruthy ct1 then ct1 else get "supported_connection_types"
  { channel := channel
    id := match dictGet kwargs "id" with
      | some v => pyStr v
      | none => freshId
    client_id := if dictHas kwargs "client_id" then some (pyStr (get "client_id")) else none
    successful := if dictHas kwargs "successful" then some (pyTruthy (get "successful")) else none
    error := if dictHas kwargs "error" then some (pyStr (get "error")) else none
    data := get "data"
    ext := match get "ext" with
      | .obj l => some l
      | _ => some []
    advice := match get "advice" with
      | .obj l => some l
      | _ => some []
    connection_types := match ct with
      | .arr l => l.map (fun v => pyToLower (pyStr v))
      | _ => []
    subscription := if dictHas kwargs "subscription" then some (pyStr (get "subscription")) else none }

/-- `Message.to_dict`: the instance dictionary in assignment order, with
entries whose value is Python `None` omitted. -/
def Message.to_dict (m : Message) : List (String × JVal) :=
  [("channel", .s m.channel), ("id", .s m.id)]
  ++ (match m.client_id with | some c => [("client_id", JVal.s c)] | none => [])
  ++ (match m.successful with | some b => [("successful", JVal.b b)] | none => [])
  ++ (match m.error with | some e => [("error", JVal.s e)] | none => [])
  ++ (if m.data.isNull then [] else [("data", m.data)])
  ++ (match m.ext with | some l => [("ext", JVal.obj l)] | none => [])
  ++ (match m.advice with | some l => [("advice", JVal.obj l)] | none => [])
  ++ [("_connection_types", .arr (m.connection_types.map JVal.s))]
  ++ (match m.subscription with | some s => [("subscription", JVal.s s)] | none => [])

/-- `Message.from_dict`: pop `channel` (a `KeyError` — `none` — if absent or
not a string, which cannot arise from `to_dict` output), pop `data` with
default `None`, and construct through `__init__` with the remaining entries as
keyword arguments. -/
def Message.from_dict (freshId : String) (d : List (String × JVal)) : Option Message :=
  match dictGet d "channel" with
  | some (.s ch) =>
    let rest := d.filter (fun p => p.1 ≠ "channel")
    let (dataVal, rest2) := dictPopD rest "data" .null
    some (mkMessage freshId ch (("data", dataVal) :: rest2))
  | _ => none

/-- `Message._match_parts`: `zip(..., strict=False)` truncates to the shorter
list, and each pattern part must be `*` or equal to the channel part. -/
def matchParts (pattern_parts channel_parts : List String) : Bool :=
  (pattern_parts.zip channel_parts).all (fun p => p.1 == "*" || p.1 == p.2)

/-- `Message.matches(pattern)` for a message whose channel is `channel`:
the channel-pattern matcher of the source, including the globbing branch.
`channel_parts[-len(suffix):]` is Python negative slicing: the last
`len(suffix)` elements (the whole list when the suffix is longer). -/
def channelMatches (channel pattern : String) : Bool :=
  if ¬ pyStartsWith pattern "/" then false
  else
    let pattern_parts := pySplit pattern '/'
    let channel_parts := pySplit channel '/'
    match pattern_parts.findIdx? (fun seg => seg == "**") with
    | some glob_index =>
      if ¬ matchParts (pattern_parts.take glob_index) (channel_parts.take glob_index) then
        false
      else if glob_index < pattern_parts.length - 1 then
        let suffix := pattern_parts.drop (glob_index + 1)
        matchParts suffix (channel_parts.drop (channel_parts.length - suffix.length))
      else true
    | none =>
      if pattern_parts.length ≠ channel_parts.length then false
      else matchParts pattern_parts channel_parts

/-- `Message.matches` as a method. -/
def Message.matches (m : Message) (pattern : String) : Bool :=
  channelMatches m.channel pattern

/-- The exception classes defined in `faye.exceptions`, plus the Python
builtin `ValueError`, which `FayeClient._create_transport` raises when no
supported transport type is available. -/
inductive ExcClass where
  | fayeError
  | transportError
  | protocolError
  | handshakeError
  | connectionError
  | subscriptionError
  | authenticationError
  | valueError
deriving DecidableEq, Repr

/-- The Python class name of each exception class. -/
def ExcClass.pyName : ExcClass → String
  | .fayeError => "FayeError"
  | .transportError => "TransportError"
  | .protocolError => "ProtocolError"
  | .handshakeError => "HandshakeError"
  | .connectionError => "ConnectionError"
  | .subscriptionError => "SubscriptionError"
  | .authenticationError => "AuthenticationError"
  | .valueError => "ValueError"

/-- A raised exception: its class and its message (`str(e)`). -/
structure Exc where
  cls : ExcClass
  msg : String
deriving DecidableEq, Repr

/-- `BayeuxProtocol._validate_channel(channel)`; `op` is
`self._current_operation`.  Returns the `FayeError` message, or `none` when
the channel is accepted. -/
def validateChannel (op : Option String) (channel : String) : Option String :=
  if channel == "" then some "Channel name cannot be empty"
  else if ¬ pyStartsWith channel "/" then some "Channel name must start with /"
  else
    let segments := pySplit channel '/'
    if (segments.drop 1).contains "" then some "Channel segments cannot be empty"
    else if pyStartsWith channel "/meta/" then
      if op == some "subscribe" then some "Cannot subscribe to service channels"
      else some "Cannot publish to service channels"
    else if pyStartsWith channel "/service/" then
      if op == some "subscribe" then some "Cannot subscribe to service channels"
      else some "Cannot publish to service channels"
    else if segments.any (fun seg => pyContainsChar seg '*' && seg != "*" && seg != "**") then
      some "Wildcard * can only be used as full segment"
    else none

/-- The mutable state of `faye.protocol.bayeux.BayeuxProtocol`. -/
structure BayeuxProtocol where
  client_id : Option String
  supported_connection_types : List String
  advice : List (String × JVal)
  handshaken : Bool
  current_operation : Option String
deriving DecidableEq

/-- `BayeuxProtocol.__init__`. -/
def BayeuxProtocol.init : BayeuxProtocol :=
  { client_id := none
    supported_connection_types := []
    advice := []
    handshaken := false
    current_operation := none }

/-- `BayeuxProtocol.handle_advice`: merge truthy advice into the record. -/
def BayeuxProtocol.handle_advice (p : BayeuxProtocol)
    (advice : Option (List (String × JVal))) : BayeuxProtocol :=
  match advice with
  | some adv => if adv.isEmpty then p else { p with advice := dictUpdate p.advice adv }
  | none => p

/-- `BayeuxProtocol.reset`. -/
def BayeuxProtocol.reset (p : BayeuxProtocol) : BayeuxProtocol :=
  { p with
    client_id := none
    handshaken := false
    supported_connection_types := []
    advice := []
    current_operation := none }

/-- `BayeuxProtocol.process_handshake_response`, including the state the
method leaves behind when it raises: the protocol object is mutated in
place, so when a successful response lacks a client id the method has
already stored `_client_id` (the falsy id) and `_supported_connection_types`
before raising.  Returns the raised exception (if any) and the
post-call protocol state. -/
def BayeuxProtocol.process_handshake_response_full (p : BayeuxProtocol)
    (response : Message) : Option Exc × BayeuxProtocol :=
  if ¬ (response.successful.getD false) then
    (some ⟨.handshakeError, "Handshake failed: " ++ pyStrOpt response.error⟩, p)
  else
    let p1 := { p with client_id := response.client_id }
    let p2 := { p1 with supported_connection_types :=
      if ¬ response.connection_types.isEmpty then
        response.connection_types.map pyToLower
      else ["websocket", "long-polling"] }
    if ¬ pyTruthyOptStr p2.client_id then
      (some ⟨.handshakeError, "No client_id in handshake response"⟩, p2)
    else
      let p3 := { p2 with handshaken := true }
      (none, p3.handle_advice response.advice)

/-- `BayeuxProtocol.process_handshake_response` viewed as raise-or-result:
which exception is raised, or the success-case state.  (The state left
behind by a raising call is the second component of
`process_handshake_response_full`.) -/
def BayeuxProtocol.process_handshake_response (p : BayeuxProtocol)
    (response : Message) : Except Exc BayeuxProtocol :=
  match p.process_handshake_response_full response with
  | (some e, _) => .error e
  | (none, p2) => .ok p2

/-- The result of one extension hook call: a returned message, a `None`
return, or a raised exception. -/
inductive HookResult where
  | ok (m : Message)
  | halt
  | raises

/-- An extension: its `outgoing` and `incoming` hooks. -/
structure Extension where
  outgoing : Message → HookResult
  incoming : Message → HookResult

/-- The loop body of `FayeClient._process_outgoing`: walk the extension list
in order, threading the current message; a `None` return aborts with no
message; a raised exception is caught and the message is forwarded
unchanged. -/
def process_outgoing (exts : List Extension) (message : Message) : Option Message :=
  match exts with
  | [] => some message
  | e :: rest =>
    match e.outgoing message with
    | .ok result => process_outgoing rest result
    | .halt => none
    | .raises => process_outgoing rest message

/-- The loop of `FayeClient._process_incoming` applied to an explicit hook
order (the caller reverses the list). -/
def process_incoming_over (exts : List Extension) (message : Message) : Option Message :=
  match exts with
  | [] => some message
  | e :: rest =>
    match e.incoming message with
    | .ok result => process_incoming_over rest result
    | .halt => none
    | .raises => process_incoming_over rest message

/-- `FayeClient._process_incoming`: the same loop over
`reversed(self._extensions)`. -/
def process_incoming (exts : List Extension) (message : Message) : Option Message :=
  process_incoming_over exts.reverse message

/-- A transport, reduced to the one bit of state the client observes. -/
structure Transport where
  connected : Bool
deriving DecidableEq

/-- The state of `faye.client.FayeClient` that the claims are about:
transport, protocol, subscription registry (callbacks are identified by
numbers), extension list. -/
structure FayeClient where
  transport : Option Transport
  protocol : BayeuxProtocol
  subscriptions : List (String × Nat)
  extensions : List Extension

/-- The `FayeClient.connected` property. -/
def FayeClient.connected (c : FayeClient) : Bool :=
  match c.transport with
  | some t => t.connected && c.protocol.handshaken
  | none => false

/-- `FayeClient.disconnect`.  The wire is abstracted by the two outcomes: the
`transport.send` of the disconnect message and the `transport.disconnect`
close; `.error e` means that await raised an exception whose `str` is `e`.
Returns the raised exception (if any) and the state after the call. -/
def FayeClient.disconnect (c : FayeClient) (sendOutcome : Except String Message)
    (closeOutcome : Except String Unit) : Option Exc × FayeClient :=
  if ¬ c.connected || c.transport.isNone then (none, c)
  else if ¬ pyTruthyOptStr c.protocol.client_id then
    (some ⟨.fayeError, "Disconnect failed: Cannot disconnect without client_id"⟩, c)
  else
    match sendOutcome with
    | .error e => (some ⟨.fayeError, "Disconnect failed: " ++ e⟩, c)
    | .ok _ =>
      match closeOutcome with
      | .error e => (some ⟨.fayeError, "Disconnect failed: " ++ e⟩, c)
      | .ok _ =>
        (none,
          { c with
            transport := none
            subscriptions := []
            protocol := c.protocol.reset })

/-- The `except` cleanup of `FayeClient.connect`: close and drop the
transport (the close itself is assumed not to raise) and wrap the cause in a
`FayeError`.  `protocol.reset()` is *not* called here, mirroring the source. -/
def connectCleanup (c : FayeClient) (cause : String) : Option Exc × FayeClient :=
  (some ⟨.fayeError, "Connection failed: " ++ cause⟩, { c with transport := none })

/-- Which transport class `FayeClient._create_transport` constructs.  The
URL rewriting (http to ws scheme upgrade) is not observed by any claim and
is abstracted away. -/
inductive TransportChoice where
  | websocketTransport
  | httpTransport
deriving DecidableEq, Repr

/-- `FayeClient._create_transport`: raises `FayeError` when the protocol has
no supported connection types yet, otherwise picks the transport class from
the lower-cased supported list and the client's preferred
`transport_type` (already lower-cased by `__init__`), raising the builtin
`ValueError` when neither class is supported. -/
def create_transport (p : BayeuxProtocol) (transport_type : String) :
    Except Exc TransportChoice :=
  if p.supported_connection_types.isEmpty then
    .error ⟨.fayeError, "No connection types available - handshake first"⟩
  else
    let supported := p.supported_connection_types.map pyToLower
    if supported.length == 1 && (supported.getD 0 "" == "long-polling") then
      .ok .httpTransport
    else if transport_type == "websocket" then
      if supported.contains "websocket" then .ok .websocketTransport
      else if supported.contains "long-polling" then .ok .httpTransport
      else .error ⟨.valueError, "No supported transport types available"⟩
    else
      if supported.contains "long-polling" then .ok .httpTransport
      else if supported.contains "websocket" then .ok .websocketTransport
      else .error ⟨.valueError, "No supported transport types available"⟩

/-- The `try` block of `FayeClient.connect`, entered once a transport is
installed: `tconnect`, `hsSend` and `cSend` are the outcomes of
`transport.connect()`, the handshake `transport.send` and the first connect
`transport.send`.  The protocol object is shared, so the state a raising
`process_handshake_response` leaves behind stays in the client. -/
def connectTry (c : FayeClient) (tconnect : Except String Unit)
    (hsSend : Except String Message) (cSend : Except String Message) :
    Option Exc × FayeClient :=
  match tconnect with
  | .error e => connectCleanup c e
  | .ok _ =>
    let c2 := { c with transport := c.transport.map (fun t => { t with connected := true }) }
    match hsSend with
    | .error e => connectCleanup c2 e
    | .ok resp =>
      match c2.protocol.process_handshake_response_full resp with
      | (some exc, p2) => connectCleanup { c2 with protocol := p2 } exc.msg
      | (none, p2) =>
        let c3 := { c2 with protocol := p2 }
        if ¬ pyTruthyOptStr p2.client_id then
          connectCleanup c3 "Cannot connect without client_id. Handshake first."
        else
          match cSend with
          | .error e => connectCleanup c3 e
          | .ok _ => (none, c3)

/-- `FayeClient.connect`: return early when connected; when no transport is
installed, run `_create_transport` *before* the `try` — its exception
propagates unwrapped with the transport still absent — installing a freshly
constructed (unconnected) transport on success; then run the `try` block. -/
def FayeClient.connect (c : FayeClient) (transport_type : String)
    (tconnect : Except String Unit) (hsSend : Except String Message)
    (cSend : Except String Message) : Option Exc × FayeClient :=
  if c.connected then (none, c)
  else if c.transport.isNone then
    match create_transport c.protocol transport_type with
    | .error exc => (some exc, c)
    | .ok _ => connectTry { c with transport := some ⟨false⟩ } tconnect hsSend cSend
  else connectTry c tconnect hsSend cSend

/-- `FayeClient.subscribe`.  `freshId` is the uuid of the subscribe message,
`cb` the registered callback, `sendOutcome` the transport send outcome. -/
def FayeClient.subscribe (c : FayeClient) (freshId : String) (channel : String)
    (cb : Nat) (sendOutcome : Except String Message) : Option Exc × FayeClient :=
  if ¬ c.connected || c.transport.isNone then (some ⟨.fayeError, "Not connected"⟩, c)
  else
    let c := { c with protocol := { c.protocol with current_operation := some "subscribe" } }
    match validateChannel c.protocol.current_operation channel with
    | some err => (some ⟨.fayeError, err⟩, c)
    | none =>
      if ¬ pyTruthyOptStr c.protocol.client_id then
        (some ⟨.fayeError, "Subscribe failed: Cannot subscribe without client_id"⟩, c)
      else
        let msg := mkMessage freshId "/meta/subscribe"
          [("client_id", .s (c.protocol.client_id.getD "")), ("subscription", .s channel)]
        match process_outgoing c.extensions msg with
        | none => (some ⟨.fayeError, "Subscribe failed: Subscribe message halted by extension"⟩, c)
        | some _ =>
          match sendOutcome with
          | .error e => (some ⟨.fayeError, "Subscribe failed: " ++ e⟩, c)
          | .ok resp =>
            match process_incoming c.extensions resp with
            | none =>
              (some ⟨.fayeError, "Subscribe failed: Subscription failed: Unknown error"⟩, c)
            | some pr =>
              if ¬ (pr.successful.getD false) then
                (some ⟨.fayeError, "Subscribe failed: Subscription failed: " ++ pyStrOpt pr.error⟩, c)
              else
                (none, { c with subscriptions := dictSetNat c.subscriptions channel cb })

/-- `FayeClient.publish`.  Returns the raised exception (if any) and the list
of messages handed to `transport.send` during the call. -/
def FayeClient.publish (c : FayeClient) (freshId : String) (channel : String)
    (data : JVal) (sendOutcome : Except String Message) : Option Exc × List Message :=
  if ¬ c.connected || c.transport.isNone then (some ⟨.fayeError, "Not connected"⟩, [])
  else
    match validateChannel (some "publish") channel with
    | some err => (some ⟨.fayeError, err⟩, [])
    | none =>
      if ¬ pyTruthyOptStr c.protocol.client_id then
        (some ⟨.fayeError, "Publish failed: Not connected - no client ID"⟩, [])
      else if pyStartsWith channel "/meta/" then
        (some ⟨.fayeError, "Publish failed: Cannot publish to service channels"⟩, [])
      else
        let msg := mkMessage freshId channel
          [("data", data), ("client_id", .s (c.protocol.client_id.getD ""))]
        match process_outgoing c.extensions msg with
        | none => (some ⟨.fayeError, "Publish failed: Publish message halted by extension"⟩, [])
        | some pm =>
          match sendOutcome with
          | .error e => (some ⟨.fayeError, "Publish failed: " ++ e⟩, [pm])
          | .ok resp =>
            match process_incoming c.extensions resp with
            | none => (some ⟨.fayeError, "Publish failed: Publish failed: Unknown error"⟩, [pm])
            | some pr =>
              if ¬ (pr.successful.getD false) then
                (some ⟨.fayeError, "Publish failed: Publish failed: " ++ pyStrOpt pr.error⟩, [pm])
              else (none, [pm])

/-- The subscription-dispatch loop of `FayeClient._handle_message` (run for a
message whose advice triggers no reconnect handling): the callbacks invoked,
in registry order. -/
def subscription_dispatch (subscriptions : List (String × Nat)) (m : Message) : List Nat :=
  (subscriptions.filter (fun p => m.matches p.1)).map (fun p => p.2)

/-! ## Helper lemmas -/

/-- `isNull` detects exactly `null`. -/
theorem JVal.isNull_iff (v : JVal) : v.isNull = true ↔ v = .null := by
  cases v <;> simp [JVal.isNull]

/-- `isNull` is false exactly away from `null`. -/
theorem JVal.isNull_eq_false_iff (v : JVal) : v.isNull = false ↔ v ≠ .null := by
  cases v <;> simp [JVal.isNull]

/-- Lookup distributes over append. -/
theorem dictGet_append (a b : List (String × JVal)) (k : String) :
    dictGet (a ++ b) k = ((dictGet a k).rec (dictGet b k) (fun v => some v)) := by
  induction a with
  | nil => simp [dictGet]
  | cons p rest ih =>
    by_cases h : p.1 = k <;> simp [dictGet, h, ih]

/-- Outgoing processing decomposes sequentially over list append: the
extensions of `xs` all run before those of `ys`. -/
theorem process_outgoing_append (xs ys : List Extension) (m : Message) :
    process_outgoing (xs ++ ys) m =
      (process_outgoing xs m).bind (fun m2 => process_outgoing ys m2) := by
  induction xs generalizing m with
  | nil => simp [process_outgoing]
  | cons e rest ih =>
    cases h : e.outgoing m <;> simp [process_outgoing, h, ih]

/-- The incoming loop decomposes sequentially over its (already reversed)
hook order. -/
theorem process_incoming_over_append (xs ys : List Extension) (m : Message) :
    process_incoming_over (xs ++ ys) m =
      (process_incoming_over xs m).bind (fun m2 => process_incoming_over ys m2) := by
  induction xs generalizing m with
  | nil => simp [process_incoming_over]
  | cons e rest ih =>
    cases h : e.incoming m <;> simp [process_incoming_over, h, ih]

/-- C7: extension-pipeline semantics.  Outbound processing runs the
extensions of a concatenation left part first (registration order); inbound
processing runs the right part first (reverse registration order); on a
single extension, a `None` return yields no message and a raised exception
forwards the input message unchanged. -/
theorem extension_pipeline_semantics (xs ys : List Extension) (e : Extension) (m : Message) :
    (process_outgoing (xs ++ ys) m =
      (process_outgoing xs m).bind (fun m2 => process_outgoing ys m2)) ∧
    (process_incoming (xs ++ ys) m =
      (process_incoming ys m).bind (fun m2 => process_incoming xs m2)) ∧
    (process_outgoing [e] m = match e.outgoing m with
      | .ok m2 => some m2
      | .halt => none
      | .raises => some m) ∧
    (process_incoming [e] m = match e.incoming m with
      | .ok m2 => some m2
      | .halt => none
      | .raises => some m) := by
  refine ⟨process_outgoing_append xs ys m, ?_, ?_, ?_⟩
  · unfold process_incoming
    rw [List.reverse_append, process_incoming_over_append]
  · cases h : e.outgoing m <;> simp [process_outgoing, h]
  · cases h : e.incoming m <;> simp [process_incoming, process_incoming_over, h]

/-- `dictHas` distributes over append. -/
theorem dictHas_append (a b : List (String × JVal)) (k : String) :
    dictHas (a ++ b) k = (dictHas a k || dictHas b k) := by
  unfold dictHas
  rw [dictGet_append]
  cases dictGet a k <;> simp

/-- A message with present `ext` and `advice` renders both keys. -/
theorem to_dict_has_ext_advice (m : Message) (le la : List (String × JVal))
    (he : m.ext = some le) (ha : m.advice = some la) :
    dictHas m.to_dict "ext" = true ∧ dictHas m.to_dict "advice" = true := by
  obtain ⟨ch, id, cid, succ, err, data, ext, adv, ct, sub⟩ := m
  simp only [Message.ext, Message.advice] at he ha
  subst he; subst ha
  cases cid <;> cases succ <;> cases err <;> cases sub <;> by_cases hd : data.isNull <;>
    simp [Message.to_dict, dictHas_append, dictHas, dictGet, hd]

/-- C10: every message built by the public constructor has non-`None` `ext`
and `advice`; an absent or non-mapping `ext`/`advice` argument is normalized
to the empty mapping; consequently `to_dict` always renders the `ext` and
`advice` keys. -/
theorem message_init_ext_advice_invariant (fid ch : String)
    (kwargs : List (String × JVal)) :
    (∃ l, (mkMessage fid ch kwargs).ext = some l) ∧
    (∃ l, (mkMessage fid ch kwargs).advice = some l) ∧
    (dictGet kwargs "ext" = none → (mkMessage fid ch kwargs).ext = some []) ∧
    (∀ v, dictGet kwargs "ext" = some v → (∀ l, v ≠ .obj l) →
      (mkMessage fid ch kwargs).ext = some []) ∧
    (dictGet kwargs "advice" = none → (mkMessage fid ch kwargs).advice = some []) ∧
    (∀ v, dictGet kwargs "advice" = some v → (∀ l, v ≠ .obj l) →
      (mkMessage fid ch kwargs).advice = some []) ∧
    dictHas (mkMessage fid ch kwargs).to_dict "ext" = true ∧
    dictHas (mkMessage fid ch kwargs).to_dict "advice" = true := by
  have hext : ∃ l, (mkMessage fid ch kwargs).ext = some l := by
    cases h : dictGet kwargs "ext" with
    | none => exact ⟨[], by simp [mkMessage, h]⟩
    | some v => cases v <;> simp [mkMessage, h]
  have hadv : ∃ l, (mkMessage fid ch kwargs).advice = some l := by
    cases h : dictGet kwargs "advice" with
    | none => exact ⟨[], by simp [mkMessage, h]⟩
    | some v => cases v <;> simp [mkMessage, h]
  obtain ⟨le, he⟩ := hext
  obtain ⟨la, ha⟩ := hadv
  have hdict := to_dict_has_ext_advice (mkMessage fid ch kwargs) le la he ha
  refine ⟨⟨le, he⟩, ⟨la, ha⟩, ?_, ?_, ?_, ?_, hdict.1, hdict.2⟩
  · intro h; simp [mkMessage, h]
  · intro v h hno
    cases v with
    | obj l => exact (hno l rfl).elim
    | s w => simp [mkMessage, h]
    | n w => simp [mkMessage, h]
    | b w => simp [mkMessage, h]
    | null => simp [mkMessage, h]
    | arr w => simp [mkMessage, h]
  · intro h; simp [mkMessage, h]
  · intro v h hno
    cases v with
    | obj l => exact (hno l rfl).elim
    | s w => simp [mkMessage, h]
    | n w => simp [mkMessage, h]
    | b w => simp [mkMessage, h]
    | null => simp [mkMessage, h]
    | arr w => simp [mkMessage, h]

/-- Witness for C10: a constructor call with no `ext`/`advice` arguments
yields empty-mapping `ext` and `advice` and renders both keys. -/
theorem message_init_ext_advice_invariant_witness :
    (mkMessage "u0" "/chat" [] ).ext = some [] ∧
    (mkMessage "u0" "/chat" [] ).advice = some [] ∧
    dictHas (mkMessage "u0" "/chat" [] ).to_dict "ext" = true ∧
    dictHas (mkMessage "u0" "/chat" [] ).to_dict "advice" = true := by
  have h := message_init_ext_advice_invariant "u0" "/chat" []
  exact ⟨h.2.2.1 rfl, h.2.2.2.2.1 rfl, h.2.2.2.2.2.2.1, h.2.2.2.2.2.2.2⟩

/-! ## C1: channel-pattern matching -/

/-- The matching relation asserted by the spec for C1: with
`pp = P.split("/")` and `cp = M.split("/")`, if `P` contains `**` (first
occurrence at index `g`), the pattern matches iff the channel has at least
as many segments as the pattern's prefix before `**` and each of those
prefix segments equals the corresponding channel segment or is `*`;
otherwise the pattern matches iff the two segment lists have equal length
and agree pointwise up to `*`. -/
def claimC1Matches (channel pattern : String) : Bool :=
  let pp := pySplit pattern '/'
  let cp := pySplit channel '/'
  match pp.findIdx? (fun seg => seg == "**") with
  | some g =>
    decide (g ≤ cp.length) &&
      (List.range g).all (fun i => pp.getD i "" == "*" || pp.getD i "" == cp.getD i "")
  | none =>
    pp.length == cp.length &&
      (List.range pp.length).all (fun i => pp.getD i "" == "*" || pp.getD i "" == cp.getD i "")

/-- Pointwise segment agreement up to `*`, truncated to the shorter list. -/
def pairwiseSegOk (pp cp : List String) : Prop :=
  ∀ i, i < pp.length → i < cp.length →
    (pp.getD i "" = "*" ∨ pp.getD i "" = cp.getD i "")

/-- The zip-based part matcher agrees with the truncated pointwise
characterization. -/
theorem matchParts_iff (pp cp : List String) :
    matchParts pp cp = true ↔ pairwiseSegOk pp cp := by
  induction pp generalizing cp with
  | nil => simp [matchParts, pairwiseSegOk]
  | cons p pr ih =>
    cases cp with
    | nil => simp [matchParts, pairwiseSegOk]
    | cons c cr =>
      rw [show matchParts (p :: pr) (c :: cr) = ((p == "*" || p == c) && matchParts pr cr)
        from rfl]
      constructor
      · intro h i hi hci
        rw [Bool.and_eq_true, Bool.or_eq_true] at h
        cases i with
        | zero => simpa using h.1
        | succ j =>
          have := (ih cr).mp h.2 j (by simpa using hi) (by simpa using hci)
          simpa using this
      · intro h
        rw [Bool.and_eq_true, Bool.or_eq_true]
        refine ⟨?_, (ih cr).mpr ?_⟩
        · have := h 0 (by simp) (by simp)
          simpa using this
        · intro j hj hcj
          have := h (j + 1) (by simpa using hj) (by simpa using hcj)
          simpa using this

/-- C1 counterexample: the channel `/foo` has fewer segments than the prefix
of the pattern `/foo/bar/**`, so the claim requires no match, but the source
matcher truncates the pairwise comparison (`zip` without `strict`) and
reports a match. -/
theorem channel_pattern_matching_counterexample :
    channelMatches "/foo" "/foo/bar/**" = true ∧
    claimC1Matches "/foo" "/foo/bar/**" = false := by
  decide

/-- C1 amended: `matches` returns true iff the pattern starts with `/` and,
when the pattern contains `**` (first occurrence at index `g`), the pattern
segments before `g` agree pointwise (up to `*`) with the channel segments
before `g` **truncated to the shorter list** — there is no requirement that
the channel reach the length of the pattern prefix — and, when `**` is not
the last segment, the segments after the first `**` agree pointwise (again
truncated) with the channel's final segments; with no `**`, the pattern
matches iff the segment counts are equal and the segments agree pointwise up
to `*`. -/
theorem channel_pattern_matching_amended (channel pattern : String) :
    channelMatches channel pattern = true ↔
      (pyStartsWith pattern "/" = true ∧
        match (pySplit pattern '/').findIdx? (fun seg => seg == "**") with
        | some g =>
          pairwiseSegOk ((pySplit pattern '/').take g) ((pySplit channel '/').take g) ∧
          (g + 1 < (pySplit pattern '/').length →
            pairwiseSegOk ((pySplit pattern '/').drop (g + 1))
              ((pySplit channel '/').drop
                ((pySplit channel '/').length - ((pySplit pattern '/').drop (g + 1)).length)))
        | none =>
          (pySplit pattern '/').length = (pySplit channel '/').length ∧
          pairwiseSegOk (pySplit pattern '/') (pySplit channel '/')) := by
  unfold channelMatches
  by_cases hs : pyStartsWith pattern "/"
  · simp only [hs, not_true, if_false, Bool.not_eq_true, if_neg (by simp : ¬ (true = false))]
    cases hfi : (pySplit pattern '/').findIdx? (fun seg => seg == "**") with
    | some g =>
      simp only [hfi]
      by_cases h1 : matchParts ((pySplit pattern '/').take g) ((pySplit channel '/').take g)
      · have hA := (matchParts_iff _ _).mp h1
        by_cases h2 : g < (pySplit pattern '/').length - 1
        · have hg : g + 1 < (pySplit pattern '/').length := by omega
          simp [h1, h2, hA, hg, matchParts_iff, hs]
        · have hg : ¬ (g + 1 < (pySplit pattern '/').length) := by omega
          simp [h1, h2, hA, hg, hs]
      · have hA : ¬ pairwiseSegOk ((pySplit pattern '/').take g)
            ((pySplit channel '/').take g) := fun hc => h1 ((matchParts_iff _ _).mpr hc)
        simp [h1, hA, hs]
    | none =>
      simp only [hfi]
      by_cases hl : (pySplit pattern '/').length = (pySplit channel '/').length
      · simp [hl, matchParts_iff, hs]
      · simp [hl, hs]
  · simp only [Bool.not_eq_true] at hs
    simp [hs]

/-! ## C4: channel validation -/

/-- Membership of `""` in the tail of a segment list, phrased by position. -/
theorem contains_drop_one_iff (l : List String) :
    ((l.drop 1).contains "" = true) ↔
      (∃ i, 1 ≤ i ∧ ∃ h : i < l.length, l.get ⟨i, h⟩ = "") := by
  cases l with
  | nil => simp
  | cons hd tl =>
    simp only [List.drop_succ_cons, List.drop_zero]
    constructor
    · intro h
      have hm : "" ∈ tl := by simpa using h
      obtain ⟨⟨j, hj⟩, he⟩ := List.mem_iff_get.mp hm
      refine ⟨j + 1, by omega, by simpa using hj, ?_⟩
      simpa using he
    · rintro ⟨i, h1, h, he⟩
      cases i with
      | zero => omega
      | succ j =>
        have hm : "" ∈ tl := by
          refine List.mem_iff_get.mpr ⟨⟨j, by simpa using h⟩, ?_⟩
          simpa using he
        simpa using hm

/-- A channel under `/meta/` is nonempty and absolute. -/
theorem meta_implies_slash (channel : String) (h : pyStartsWith channel "/meta/" = true) :
    ¬ channel = "" ∧ pyStartsWith channel "/" = true := by
  unfold pyStartsWith at h ⊢
  rw [List.isPrefixOf_iff_prefix] at h
  obtain ⟨t, ht⟩ := h
  have hml : "/meta/".toList = '/' :: ['m', 'e', 't', 'a', '/'] := by decide
  have hsl : "/".toList = ['/'] := by decide
  constructor
  · intro h0
    rw [h0] at ht
    have : ("" : String).toList = [] := by decide
    rw [this] at ht
    simp [hml] at ht
  · rw [List.isPrefixOf_iff_prefix, hsl]
    exact ⟨['m', 'e', 't', 'a', '/'] ++ t, by rw [← ht, hml]; simp⟩

/-- A channel under `/service/` is nonempty and absolute. -/
theorem service_implies_slash (channel : String)
    (h : pyStartsWith channel "/service/" = true) :
    ¬ channel = "" ∧ pyStartsWith channel "/" = true := by
  unfold pyStartsWith at h ⊢
  rw [List.isPrefixOf_iff_prefix] at h
  obtain ⟨t, ht⟩ := h
  have hml : "/service/".toList = '/' :: ['s', 'e', 'r', 'v', 'i', 'c', 'e', '/'] := by decide
  have hsl : "/".toList = ['/'] := by decide
  constructor
  · intro h0
    rw [h0] at ht
    have : ("" : String).toList = [] := by decide
    rw [this] at ht
    simp [hml] at ht
  · rw [List.isPrefixOf_iff_prefix, hsl]
    exact ⟨['s', 'e', 'r', 'v', 'i', 'c', 'e', '/'] ++ t, by rw [← ht, hml]; simp⟩

/-- A channel cannot lie under both `/service/` and `/meta/`. -/
theorem meta_service_exclusive (channel : String)
    (hs : pyStartsWith channel "/service/" = true) :
    pyStartsWith channel "/meta/" = false := by
  by_contra hm
  rw [Bool.not_eq_false] at hm
  unfold pyStartsWith at hs hm
  rw [List.isPrefixOf_iff_prefix] at hs hm
  obtain ⟨t, ht⟩ := hs
  obtain ⟨u, hu⟩ := hm
  rw [← ht] at hu
  have h1 : "/meta/".toList = ['/', 'm', 'e', 't', 'a', '/'] := by decide
  have h2 : "/service/".toList = ['/', 's', 'e', 'r', 'v', 'i', 'c', 'e', '/'] := by decide
  rw [h1, h2] at hu
  simp at hu

/-- The rejection set claimed by the spec for C4: empty channel, relative
channel, empty segment after the leading slash, a wildcard occurring inside
a larger segment, or a channel under `/meta/` or `/service/`. -/
def C4RejectSet (channel : String) : Prop :=
  channel = "" ∨
  pyStartsWith channel "/" = false ∨
  (∃ i, 1 ≤ i ∧ ∃ h : i < (pySplit channel '/').length, (pySplit channel '/').get ⟨i, h⟩ = "") ∨
  (∃ seg ∈ pySplit channel '/', pyContainsChar seg '*' = true ∧ seg ≠ "*" ∧ seg ≠ "**") ∨
  pyStartsWith channel "/meta/" = true ∨
  pyStartsWith channel "/service/" = true

/-- C4: for the subscribe and publish operation contexts, channel validation
rejects exactly the claimed set of channels, and a `/meta/` or `/service/`
channel (with no empty segment, which would be reported first) draws a
subscribe-specific reason in the subscribe context and a publish-specific
reason in the publish context. -/
theorem channel_validation_characterization (op : Option String) (channel : String)
    (hop : op = some "subscribe" ∨ op = some "publish") :
    ((validateChannel op channel).isSome = true ↔ C4RejectSet channel) ∧
    ((pyStartsWith channel "/meta/" = true ∨ pyStartsWith channel "/service/" = true) →
      ((pySplit channel '/').drop 1).contains "" = false →
      validateChannel (some "subscribe") channel = some "Cannot subscribe to service channels" ∧
      validateChannel (some "publish") channel = some "Cannot publish to service channels" ∧
      ("Cannot subscribe to service channels" : String) ≠
        "Cannot publish to service channels") := by
  have part2 : (pyStartsWith channel "/meta/" = true ∨ pyStartsWith channel "/service/" = true) →
      ((pySplit channel '/').drop 1).contains "" = false →
      validateChannel (some "subscribe") channel = some "Cannot subscribe to service channels" ∧
      validateChannel (some "publish") channel = some "Cannot publish to service channels" ∧
      ("Cannot subscribe to service channels" : String) ≠
        "Cannot publish to service channels" := by
    intro hms hne
    have hne2 : "" ∉ (pySplit channel '/').tail := by
      rw [← List.drop_one]
      simpa using hne
    rcases hms with hmeta | hserv
    · obtain ⟨h1, h2⟩ := meta_implies_slash channel hmeta
      refine ⟨?_, ?_, by decide⟩ <;>
        simp [validateChannel, h1, h2, hne2, hmeta]
    · obtain ⟨h1, h2⟩ := service_implies_slash channel hserv
      have hmeta := meta_service_exclusive channel hserv
      refine ⟨?_, ?_, by decide⟩ <;>
        simp [validateChannel, h1, h2, hne2, hmeta, hserv]
  refine ⟨?_, part2⟩
  by_cases h1 : channel = ""
  · simp [validateChannel, C4RejectSet, h1]
  · by_cases h2 : pyStartsWith channel "/"
    · by_cases h3 : ((pySplit channel '/').drop 1).contains ""
      · have h3m : "" ∈ (pySplit channel '/').tail := by
          rw [← List.drop_one]
          simpa using h3
        refine iff_of_true ?_ ?_
        · simp [validateChannel, h1, h2, h3m]
        · exact Or.inr (Or.inr (Or.inl ((contains_drop_one_iff _).mp h3)))
      · have h3m : "" ∉ (pySplit channel '/').tail := by
          rw [← List.drop_one]
          simpa using h3
        by_cases h4 : pyStartsWith channel "/meta/"
        · refine iff_of_true ?_ ?_
          · rcases hop with rfl | rfl <;>
              simp [validateChannel, h1, h2, h3m, h4]
          · exact Or.inr (Or.inr (Or.inr (Or.inr (Or.inl h4))))
        · by_cases h5 : pyStartsWith channel "/service/"
          · refine iff_of_true ?_ ?_
            · rcases hop with rfl | rfl <;>
                simp [validateChannel, h1, h2, h3m, h4, h5]
            · exact Or.inr (Or.inr (Or.inr (Or.inr (Or.inr h5))))
          · by_cases h6 : (pySplit channel '/').any
                (fun seg => pyContainsChar seg '*' && seg != "*" && seg != "**")
            · refine iff_of_true ?_ ?_
              · simp [validateChannel, h1, h2, h3m, h4, h5, h6]
              · refine Or.inr (Or.inr (Or.inr (Or.inl ?_)))
                obtain ⟨seg, hseg, hp⟩ := List.any_eq_true.mp h6
                rw [Bool.and_eq_true, Bool.and_eq_true] at hp
                exact ⟨seg, hseg, hp.1.1, by simpa using hp.1.2, by simpa using hp.2⟩
            · refine iff_of_false ?_ ?_
              · simp [validateChannel, h1, h2, h3m, h4, h5, h6]
              · rintro (hc | hc | hc | hc | hc | hc)
                · exact h1 hc
                · rw [h2] at hc; cases hc
                · exact h3 ((contains_drop_one_iff _).mpr hc)
                · obtain ⟨seg, hseg, hc1, hc2, hc3⟩ := hc
                  refine h6 (List.any_eq_true.mpr ⟨seg, hseg, ?_⟩)
                  rw [Bool.and_eq_true, Bool.and_eq_true]
                  exact ⟨⟨hc1, by simpa using hc2⟩, by simpa using hc3⟩
                · exact absurd hc (by simp [h4])
                · exact absurd hc (by simp [h5])
    · refine iff_of_true ?_ ?_
      · simp [validateChannel, h1, h2]
      · exact Or.inr (Or.inl (by simpa using h2))

/-- Witness for C4: a wildcard-inside-a-segment channel is rejected and lies
in the claimed rejection set; a `/meta/` channel draws the two distinct
operation-specific reasons. -/
theorem channel_validation_characterization_witness :
    (validateChannel (some "publish") "/a*b").isSome = true ∧
    C4RejectSet "/a*b" ∧
    validateChannel (some "subscribe") "/meta/x" = some "Cannot subscribe to service channels" ∧
    validateChannel (some "publish") "/meta/x" = some "Cannot publish to service channels" := by
  have h := channel_validation_characterization (some "publish") "/a*b" (Or.inr rfl)
  have h2 := channel_validation_characterization (some "subscribe") "/meta/x" (Or.inl rfl)
  have hm := h2.2 (Or.inl (by decide)) (by decide)
  exact ⟨by decide, h.1.mp (by decide), hm.1, hm.2.1⟩

/-! ## C2: serialization round trip -/


set_option maxHeartbeats 2000000 in
/-- Parsing the rendered dictionary of a message with present `ext` and
`advice` (which every constructed message has) restores every field except
`supported_connection_types`, which `__init__` only reads from the
`supportedConnectionTypes` / `supported_connection_types` keyword arguments
while `to_dict` renders it under the attribute name `_connection_types`. -/
theorem from_dict_to_dict (fid : String) (m : Message) (le la : List (String × JVal))
    (he : m.ext = some le) (ha : m.advice = some la) :
    Message.from_dict fid m.to_dict = some { m with connection_types := [] } := by
  obtain ⟨ch, id, cid, succ, err, data, ext, adv, ct, sub⟩ := m
  simp only [Message.ext, Message.advice] at he ha
  subst he ha
  by_cases hd : data = JVal.null
  · subst hd
    cases cid <;> cases succ <;> cases err <;> cases sub <;>
      (simp only [Message.to_dict, Message.from_dict, JVal.isNull, List.append_nil,
         List.nil_append, List.cons_append];
       simp only [dictGet, dictPopD, dictHas, mkMessage];
       simp [pyStr, pyTruthy])
  · have hd2 : data.isNull = false := (JVal.isNull_eq_false_iff data).mpr hd
    cases cid <;> cases succ <;> cases err <;> cases sub <;>
      (simp only [Message.to_dict, Message.from_dict, hd2, Bool.false_eq_true, if_false,
         List.append_nil, List.nil_append, List.cons_append];
       simp only [dictGet, dictPopD, dictHas, mkMessage];
       simp [pyStr, pyTruthy])

/-- The constructor always produces a present `ext`. -/
theorem mkMessage_ext_some (fid ch : String) (kwargs : List (String × JVal)) :
    ∃ l, (mkMessage fid ch kwargs).ext = some l := by
  cases h : dictGet kwargs "ext" with
  | none => exact ⟨[], by simp [mkMessage, h]⟩
  | some v => cases v <;> simp [mkMessage, h]

/-- The constructor always produces a present `advice`. -/
theorem mkMessage_advice_some (fid ch : String) (kwargs : List (String × JVal)) :
    ∃ l, (mkMessage fid ch kwargs).advice = some l := by
  cases h : dictGet kwargs "advice" with
  | none => exact ⟨[], by simp [mkMessage, h]⟩
  | some v => cases v <;> simp [mkMessage, h]

/-- A message constructed with a `supportedConnectionTypes` argument. -/
def c2msg : Message :=
  mkMessage "u0" "/c" [("supportedConnectionTypes", JVal.arr [JVal.s "websocket"])]

/-- C2 counterexample: a constructed message with a non-empty connection-type
list does not round trip — `to_dict` renders the list under the Python
attribute name `_connection_types`, which `from_dict`/`__init__` does not
read back, so the reparsed message carries an empty list. -/
theorem serialization_roundtrip_counterexample :
    Message.from_dict "u0" (Message.to_dict c2msg) ≠ some c2msg ∧
    c2msg.connection_types = ["websocket"] ∧
    (Message.from_dict "u0" (Message.to_dict c2msg)).map Message.connection_types =
      some [] := by
  refine ⟨by decide, by decide, by decide⟩

/-- C2 amended: for every constructed message, parsing the rendered wire
mapping restores the message exactly except for
`supported_connection_types`, which is reset to the empty list; in
particular the round trip is exact for every constructed message whose
connection-type list is empty. -/
theorem serialization_roundtrip_amended (fid fid2 ch : String)
    (kwargs : List (String × JVal)) :
    Message.from_dict fid2 (Message.to_dict (mkMessage fid ch kwargs)) =
      some { mkMessage fid ch kwargs with connection_types := [] } := by
  obtain ⟨le, he⟩ := mkMessage_ext_some fid ch kwargs
  obtain ⟨la, ha⟩ := mkMessage_advice_some fid ch kwargs
  exact from_dict_to_dict fid2 (mkMessage fid ch kwargs) le la he ha

/-! ## C3: handshake-response processing -/

/-- C3: on a successful response carrying a (nonempty) client id, the
protocol stores the id, stores the lower-cased connection types (falling
back to `["websocket", "long-polling"]` when the response's list is absent
or empty), merges the response advice into the advice record and marks the
protocol handshaken; an unsuccessful response raises a `HandshakeError`
carrying the server error string; a successful response without a client id
raises a `HandshakeError`. -/
theorem handshake_response_processing (p : BayeuxProtocol) (resp : Message) :
    (∀ cid, resp.successful = some true → resp.client_id = some cid → cid ≠ "" →
      p.process_handshake_response resp =
        .ok { p with
          client_id := some cid
          supported_connection_types :=
            if resp.connection_types.isEmpty then ["websocket", "long-polling"]
            else resp.connection_types.map pyToLower
          handshaken := true
          advice := match resp.advice with
            | some adv => if adv.isEmpty then p.advice else dictUpdate p.advice adv
            | none => p.advice }) ∧
    (resp.successful = some false →
      p.process_handshake_response resp =
        .error ⟨.handshakeError, "Handshake failed: " ++ pyStrOpt resp.error⟩) ∧
    (resp.successful = some true → resp.client_id = none →
      p.process_handshake_response resp =
        .error ⟨.handshakeError, "No client_id in handshake response"⟩) := by
  refine ⟨?_, ?_, ?_⟩
  · intro cid hs hc hne
    have hcid : pyTruthyOptStr (some cid) = true := by
      simp [pyTruthyOptStr, hne]
    by_cases hct : resp.connection_types.isEmpty <;>
      cases hadv : resp.advice with
    | none =>
      simp [BayeuxProtocol.process_handshake_response,
        BayeuxProtocol.process_handshake_response_full, BayeuxProtocol.handle_advice,
        hs, hc, hcid, hct, hadv]
    | some adv =>
      by_cases hae : adv.isEmpty <;>
        simp [BayeuxProtocol.process_handshake_response,
          BayeuxProtocol.process_handshake_response_full, BayeuxProtocol.handle_advice,
          hs, hc, hcid, hct, hadv, hae]
  · intro hs
    simp [BayeuxProtocol.process_handshake_response,
      BayeuxProtocol.process_handshake_response_full, hs]
  · intro hs hc
    simp [BayeuxProtocol.process_handshake_response,
      BayeuxProtocol.process_handshake_response_full, hs, hc, pyTruthyOptStr]

/-- Witness for C3: concrete successful, failed, and id-less handshake
responses processed from the fresh protocol state. -/
theorem handshake_response_processing_witness :
    (BayeuxProtocol.init.process_handshake_response
      (mkMessage "u0" "/meta/handshake"
        [("successful", JVal.b true), ("client_id", JVal.s "c1")]) =
      .ok { client_id := some "c1"
            supported_connection_types := ["websocket", "long-polling"]
            advice := []
            handshaken := true
            current_operation := none }) ∧
    (BayeuxProtocol.init.process_handshake_response
      (mkMessage "u1" "/meta/handshake"
        [("successful", JVal.b false), ("error", JVal.s "401::nope")]) =
      .error ⟨.handshakeError, "Handshake failed: 401::nope"⟩) ∧
    (BayeuxProtocol.init.process_handshake_response
      (mkMessage "u2" "/meta/handshake" [("successful", JVal.b true)]) =
      .error ⟨.handshakeError, "No client_id in handshake response"⟩) := by
  have h1 := handshake_response_processing BayeuxProtocol.init
    (mkMessage "u0" "/meta/handshake"
      [("successful", JVal.b true), ("client_id", JVal.s "c1")])
  have h2 := handshake_response_processing BayeuxProtocol.init
    (mkMessage "u1" "/meta/handshake"
      [("successful", JVal.b false), ("error", JVal.s "401::nope")])
  have h3 := handshake_response_processing BayeuxProtocol.init
    (mkMessage "u2" "/meta/handshake" [("successful", JVal.b true)])
  refine ⟨?_, ?_, ?_⟩
  · have := h1.1 "c1" (by decide) (by decide) (by decide)
    rw [this]
    rfl
  · have := h2.2.1 (by decide)
    rw [this]
    rfl
  · exact h3.2.2 (by decide) (by decide)

/-! ## C5, C6, C8, C9: client operations -/

/-- A connected client with one live subscription, as produced by a
successful handshake/connect/subscribe exchange. -/
def connClient : FayeClient :=
  { transport := some ⟨true⟩
    protocol :=
      { client_id := some "client123"
        supported_connection_types := ["websocket"]
        advice := []
        handshaken := true
        current_operation := none }
    subscriptions := [("/a/b", 0)]
    extensions := [] }

/-- A freshly built client. -/
def freshClient : FayeClient :=
  { transport := none
    protocol := BayeuxProtocol.init
    subscriptions := []
    extensions := [] }

/-- A connected client's transport is present. -/
theorem connected_transport_isSome (c : FayeClient) (hc : c.connected = true) :
    c.transport.isNone = false := by
  cases htr : c.transport with
  | none => rw [FayeClient.connected, htr] at hc; cases hc
  | some t => simp [htr]

/-- C5 counterexample: a wire error while sending the disconnect message
leaves the registry, the transport and the protocol session state untouched
— `disconnect` raises `FayeError` without releasing local state. -/
theorem disconnect_failure_counterexample :
    connClient.connected = true ∧
    (connClient.disconnect (.error "boom") (.ok ())).1 =
      some ⟨.fayeError, "Disconnect failed: boom"⟩ ∧
    (connClient.disconnect (.error "boom") (.ok ())).2.subscriptions = [("/a/b", 0)] ∧
    (connClient.disconnect (.error "boom") (.ok ())).2.transport = some ⟨true⟩ ∧
    (connClient.disconnect (.error "boom") (.ok ())).2.protocol.handshaken = true ∧
    (connClient.disconnect (.error "boom") (.ok ())).2.protocol.client_id =
      some "client123" := by
  exact ⟨rfl, rfl, rfl, rfl, rfl, rfl⟩

/-- C5 amended: on a connected client, a disconnect whose sends succeed
releases the transport, empties the registry and resets the protocol; but a
wire error while sending the disconnect message or closing the transport
makes `disconnect` raise `FayeError` and leave the client state exactly as
it was. -/
theorem disconnect_releases_state_amended (c : FayeClient) (m : Message) (e : String)
    (hc : c.connected = true) (hid : pyTruthyOptStr c.protocol.client_id = true) :
    (c.disconnect (.ok m) (.ok ()) =
      (none, { c with
        transport := none
        subscriptions := []
        protocol := c.protocol.reset })) ∧
    (∀ close, c.disconnect (.error e) close =
      (some ⟨.fayeError, "Disconnect failed: " ++ e⟩, c)) ∧
    (c.disconnect (.ok m) (.error e) =
      (some ⟨.fayeError, "Disconnect failed: " ++ e⟩, c)) := by
  have ht := connected_transport_isSome c hc
  refine ⟨?_, ?_, ?_⟩
  · simp [FayeClient.disconnect, hc, ht, hid]
  · intro close
    simp [FayeClient.disconnect, hc, ht, hid]
  · simp [FayeClient.disconnect, hc, ht, hid]

/-- Witness for C5 amended: the clean and the failing disconnect on the
concrete connected client. -/
theorem disconnect_releases_state_amended_witness :
    connClient.disconnect (.ok (mkMessage "r" "/meta/disconnect" [])) (.ok ()) =
      (none, { connClient with
        transport := none
        subscriptions := []
        protocol := connClient.protocol.reset }) ∧
    connClient.disconnect (.error "boom2") (.ok ()) =
      (some ⟨.fayeError, "Disconnect failed: boom2"⟩, connClient) := by
  have h := disconnect_releases_state_amended connClient
    (mkMessage "r" "/meta/disconnect" []) "boom2" rfl rfl
  exact ⟨h.1, h.2.1 (.ok ())⟩

/-- A successful handshake response carrying client id `c1`. -/
def hsOkResp : Message :=
  mkMessage "h1" "/meta/handshake" [("successful", JVal.b true), ("client_id", JVal.s "c1")]

/-- A client in the state `connect`'s own connect-send-failure cleanup
leaves behind: no transport, but a protocol holding a processed handshake,
so `_create_transport` succeeds and the `try` block is entered. -/
def c6client : FayeClient :=
  { transport := none
    protocol :=
      { client_id := some "c1"
        supported_connection_types := ["websocket", "long-polling"]
        advice := []
        handshaken := true
        current_operation := none }
    subscriptions := []
    extensions := [] }

/-- The result of a connect whose first connect-send fails after a
successful handshake. -/
def c6result : Option Exc × FayeClient :=
  c6client.connect "websocket" (.ok ()) (.ok hsOkResp) (.error "late")

/-- C6 counterexample: when the first connect send fails after a successful
handshake, `connect` releases the transport and raises `FayeError`, but it
does not call `protocol.reset()` — the session id and handshake flag
survive, so the session state is not cleared. -/
theorem connect_failure_counterexample :
    c6result.1 = some ⟨.fayeError, "Connection failed: late"⟩ ∧
    c6result.2.transport = none ∧
    c6result.2.connected = false ∧
    c6result.2.protocol.handshaken = true ∧
    c6result.2.protocol.client_id = some "c1" ∧
    c6result.2.protocol ≠ c6result.2.protocol.reset := by
  exact ⟨rfl, rfl, rfl, rfl, rfl, by decide⟩

/-- The entry condition of `connect`'s `try` block for an unconnected
client: a transport is already installed, or `_create_transport` succeeds. -/
def entersTry (c : FayeClient) (ttype : String) : Prop :=
  c.transport.isNone = false ∨ ∃ ch, create_transport c.protocol ttype = .ok ch

/-- An unconnected client satisfying `entersTry` runs the `try` block on
itself with, at most, a freshly constructed transport installed. -/
theorem connect_enters_try (c : FayeClient) (ttype : String)
    (tc : Except String Unit) (hs2 cs2 : Except String Message)
    (hc : c.connected = false) (htry : entersTry c ttype) :
    ∃ tr, c.connect ttype tc hs2 cs2 = connectTry { c with transport := tr } tc hs2 cs2 := by
  rcases htry with htr | ⟨ch, hch⟩
  · refine ⟨c.transport, ?_⟩
    have heta : ({ c with transport := c.transport } : FayeClient) = c := rfl
    rw [heta]
    simp [FayeClient.connect, hc, htr]
  · by_cases htr : c.transport.isNone = true
    · refine ⟨some ⟨false⟩, ?_⟩
      simp [FayeClient.connect, hc, htr, hch]
    · refine ⟨c.transport, ?_⟩
      have heta : ({ c with transport := c.transport } : FayeClient) = c := rfl
      rw [heta]
      simp [FayeClient.connect, hc, htr]

/-- C6 amended: when no transport is installed and `_create_transport`
raises, `connect` re-raises that exception unwrapped, before the `try`
block, with the client unchanged.  Once the `try` block is entered, failure
of any of its steps — transport connect, handshake send, handshake
processing, first connect send — drops the transport, leaves the client not
connected and raises a `FayeError` wrapping the cause; `protocol.reset()` is
**not** called: the protocol keeps the state the failure left behind (the
mutations a raising `process_handshake_response` performed, or the full
post-handshake session state when the first connect send fails). -/
theorem connect_failure_cleanup_amended (c : FayeClient) (ttype e : String)
    (hs cs : Except String Message) (resp : Message) (exc0 : Exc)
    (hc : c.connected = false) :
    (c.transport = none → create_transport c.protocol ttype = .error exc0 →
      ∀ tc, c.connect ttype tc hs cs = (some exc0, c)) ∧
    (entersTry c ttype →
      c.connect ttype (.error e) hs cs =
        (some ⟨.fayeError, "Connection failed: " ++ e⟩, { c with transport := none })) ∧
    (entersTry c ttype →
      c.connect ttype (.ok ()) (.error e) cs =
        (some ⟨.fayeError, "Connection failed: " ++ e⟩, { c with transport := none })) ∧
    (entersTry c ttype →
      ∀ exc p2, c.protocol.process_handshake_response_full resp = (some exc, p2) →
      c.connect ttype (.ok ()) (.ok resp) cs =
        (some ⟨.fayeError, "Connection failed: " ++ exc.msg⟩,
          { c with transport := none, protocol := p2 })) ∧
    (entersTry c ttype →
      ∀ p2, c.protocol.process_handshake_response_full resp = (none, p2) →
      pyTruthyOptStr p2.client_id = true →
      c.connect ttype (.ok ()) (.ok resp) (.error e) =
        (some ⟨.fayeError, "Connection failed: " ++ e⟩,
          { c with transport := none, protocol := p2 })) ∧
    (FayeClient.connected { c with transport := none } = false) := by
  refine ⟨?_, ?_, ?_, ?_, ?_, ?_⟩
  · intro h0 hcr tc
    have h0b : c.transport.isNone = true := by simp [h0]
    simp [FayeClient.connect, hc, h0b, hcr]
  · intro htry
    obtain ⟨tr, heq⟩ := connect_enters_try c ttype (.error e) hs cs hc htry
    rw [heq]
    rfl
  · intro htry
    obtain ⟨tr, heq⟩ := connect_enters_try c ttype (.ok ()) (.error e) cs hc htry
    rw [heq]
    rfl
  · intro htry exc p2 hresp
    obtain ⟨tr, heq⟩ := connect_enters_try c ttype (.ok ()) (.ok resp) cs hc htry
    rw [heq]
    simp [connectTry, connectCleanup, hresp]
  · intro htry p2 hresp hid
    obtain ⟨tr, heq⟩ := connect_enters_try c ttype (.ok ()) (.ok resp) (.error e) hc htry
    rw [heq]
    simp [connectTry, connectCleanup, hresp, hid]
  · simp [FayeClient.connected]

/-- Witness for C6 amended: on the fresh client, `_create_transport` raises
unwrapped before any wire step; on the post-handshake client, the failing
first connect send wraps the cause and keeps the session state. -/
theorem connect_failure_cleanup_amended_witness :
    freshClient.connect "websocket" (.ok ()) (.ok hsOkResp) (.ok hsOkResp) =
      (some ⟨.fayeError, "No connection types available - handshake first"⟩,
        freshClient) ∧
    c6client.connect "websocket" (.ok ()) (.ok hsOkResp) (.error "late") =
      (some ⟨.fayeError, "Connection failed: late"⟩,
        { c6client with
          transport := none
          protocol :=
            { client_id := some "c1"
              supported_connection_types := ["websocket", "long-polling"]
              advice := []
              handshaken := true
              current_operation := none } }) := by
  have h1 := connect_failure_cleanup_amended freshClient "websocket" "x"
    (.ok hsOkResp) (.ok hsOkResp) hsOkResp
    ⟨.fayeError, "No connection types available - handshake first"⟩ rfl
  have h2 := connect_failure_cleanup_amended c6client "websocket" "late"
    (.ok hsOkResp) (.ok hsOkResp) hsOkResp
    ⟨.fayeError, "No connection types available - handshake first"⟩ rfl
  refine ⟨h1.1 rfl rfl (.ok ()), ?_⟩
  exact h2.2.2.2.2.1 (Or.inr ⟨.websocketTransport, rfl⟩)
    { client_id := some "c1"
      supported_connection_types := ["websocket", "long-polling"]
      advice := []
      handshaken := true
      current_operation := none } rfl rfl

/-- C8 counterexample: publishing to `/meta/foo` on a connected client
raises before any message is handed to the transport, with the reason the
claim states — but as a plain `FayeError`: the library defines no exception
class named `ValidationError` at all. -/
theorem publish_meta_rejection_counterexample :
    (connClient.publish "u0" "/meta/foo" (.n 1) (.error "unused")).1 =
      some ⟨.fayeError, "Cannot publish to service channels"⟩ ∧
    (connClient.publish "u0" "/meta/foo" (.n 1) (.error "unused")).2 = [] ∧
    ExcClass.fayeError.pyName = "FayeError" ∧
    (∀ k : ExcClass, k.pyName ≠ "ValidationError") := by
    refine ⟨rfl, rfl, rfl, ?_⟩
    intro k
    cases k <;> decide

/-- C8 amended: publishing to a channel under `/meta/` (with no empty
segment, which would be reported first) on a connected client raises a
`FayeError` — the code base has no `ValidationError` class — whose message
is "Cannot publish to service channels", synchronously: no message reaches
`transport.send`. -/
theorem publish_meta_rejection_amended (c : FayeClient) (fid channel : String)
    (data : JVal) (send : Except String Message)
    (hc : c.connected = true)
    (hm : pyStartsWith channel "/meta/" = true)
    (hne : ((pySplit channel '/').drop 1).contains "" = false) :
    c.publish fid channel data send =
      (some ⟨.fayeError, "Cannot publish to service channels"⟩, []) := by
  have ht := connected_transport_isSome c hc
  obtain ⟨h1, h2⟩ := meta_implies_slash channel hm
  have hne2 : "" ∉ (pySplit channel '/').tail := by
    rw [← List.drop_one]
    simpa using hne
  have hval : validateChannel (some "publish") channel =
      some "Cannot publish to service channels" := by
    simp [validateChannel, h1, h2, hne2, hm]
  simp [FayeClient.publish, hc, ht, hval]

/-- Witness for C8 amended: the concrete `/meta/foo` publish. -/
theorem publish_meta_rejection_amended_witness :
    connClient.publish "u0" "/meta/foo" (.n 1) (.error "unused") =
      (some ⟨.fayeError, "Cannot publish to service channels"⟩, []) :=
  publish_meta_rejection_amended connClient "u0" "/meta/foo" (.n 1) (.error "unused")
    rfl (by decide) (by decide)

/-- Registry lookup distributes over append. -/
theorem dictGetNat_append (a b : List (String × Nat)) (k : String) :
    dictGetNat (a ++ b) k = ((dictGetNat a k).rec (dictGetNat b k) (fun v => some v)) := by
  induction a with
  | nil => simp [dictGetNat]
  | cons p rest ih =>
    by_cases h : p.1 = k <;> simp [dictGetNat, h, ih]

/-- Overwriting key `k` in place rewrites exactly the entry at `k`. -/
theorem dictGetNat_map_set_self (d : List (String × Nat)) (k : String) (v : Nat) :
    dictGetNat (d.map (fun p => if p.1 = k then (k, v) else p)) k =
      (dictGetNat d k).map (fun _ => v) := by
  induction d with
  | nil => simp [dictGetNat]
  | cons p rest ih =>
    by_cases hp : p.1 = k <;> simp [dictGetNat, hp, ih]

/-- Overwriting key `k` in place leaves other keys unchanged. -/
theorem dictGetNat_map_set_ne (d : List (String × Nat)) (k k2 : String) (v : Nat)
    (hne : k2 ≠ k) :
    dictGetNat (d.map (fun p => if p.1 = k then (k, v) else p)) k2 = dictGetNat d k2 := by
  have hkk2 : ¬ k = k2 := fun hc => hne hc.symm
  induction d with
  | nil => simp [dictGetNat]
  | cons p rest ih =>
    by_cases hp : p.1 = k
    · have hpk2 : ¬ p.1 = k2 := by
        rw [hp]
        exact fun hc => hne hc.symm
      simp [dictGetNat, hp, hpk2, hkk2, ih]
    · by_cases hp2 : p.1 = k2 <;> simp [dictGetNat, hp, hp2, hkk2, hne, ih]

/-- After `d[k] = v`, looking up `k` yields `v`. -/
theorem dictGetNat_dictSetNat_self (d : List (String × Nat)) (k : String) (v : Nat) :
    dictGetNat (dictSetNat d k v) k = some v := by
  unfold dictSetNat
  by_cases h : (dictGetNat d k).isSome = true
  · rw [if_pos h, dictGetNat_map_set_self]
    obtain ⟨w, hw⟩ := Option.isSome_iff_exists.mp h
    simp [hw]
  · rw [if_neg h, dictGetNat_append]
    have hd : dictGetNat d k = none := by
      cases hd : dictGetNat d k with
      | none => rfl
      | some w => rw [hd] at h; simp at h
    simp [hd, dictGetNat]

/-- After `d[k] = v`, other keys are unaffected. -/
theorem dictGetNat_dictSetNat_ne (d : List (String × Nat)) (k k2 : String) (v : Nat)
    (hne : k2 ≠ k) : dictGetNat (dictSetNat d k v) k2 = dictGetNat d k2 := by
  unfold dictSetNat
  by_cases h : (dictGetNat d k).isSome = true
  · rw [if_pos h, dictGetNat_map_set_ne d k k2 v hne]
  · rw [if_neg h, dictGetNat_append]
    have hkk2 : ¬ k = k2 := fun hc => hne hc.symm
    cases hd : dictGetNat d k2 with
    | some w => simp
    | none => simp [dictGetNat, hkk2]

/-- A connected, extension-free client with an empty registry. -/
def c9client : FayeClient :=
  { transport := some ⟨true⟩
    protocol :=
      { client_id := some "client123"
        supported_connection_types := ["websocket"]
        advice := []
        handshaken := true
        current_operation := none }
    subscriptions := []
    extensions := [] }

/-- A successful subscribe response. -/
def subOkResp : Message :=
  mkMessage "r1" "/meta/subscribe" [("successful", JVal.b true)]

/-- The client after two successful subscribes to the same channel with the
distinct callbacks `0` and `1`. -/
def c9after : FayeClient :=
  ((c9client.subscribe "s1" "/a/b" 0 (.ok subOkResp)).2.subscribe
    "s2" "/a/b" 1 (.ok subOkResp)).2

/-- C9 counterexample: both subscribes succeed, yet the registry keeps only
the second callback for the channel — it maps each pattern to a single
callback, not to a set — so a matching inbound message is dispatched only to
callback `1`, never to callback `0`. -/
theorem subscription_registry_counterexample :
    (c9client.subscribe "s1" "/a/b" 0 (.ok subOkResp)).1 = none ∧
    ((c9client.subscribe "s1" "/a/b" 0 (.ok subOkResp)).2.subscribe
      "s2" "/a/b" 1 (.ok subOkResp)).1 = none ∧
    c9after.subscriptions = [("/a/b", 1)] ∧
    subscription_dispatch c9after.subscriptions
      (mkMessage "m1" "/a/b" [("data", JVal.s "x")]) = [1] := by
  exact ⟨rfl, rfl, rfl, rfl⟩

/-- C9 amended: the subscription registry maps each channel pattern to the
single most recently registered callback — a successful subscribe stores its
callback under the channel, overwriting any earlier callback for the same
channel and leaving other channels untouched; a subscribe call that fails
(wire error or unsuccessful response) leaves the registry unchanged; an
inbound message is dispatched to the registered callback of every matching
pattern. -/
theorem subscription_registry_amended (c : FayeClient) (fid ch : String) (cb : Nat)
    (resp : Message) (e : String)
    (hc : c.connected = true)
    (hext : c.extensions = [])
    (hval : validateChannel (some "subscribe") ch = none)
    (hid : pyTruthyOptStr c.protocol.client_id = true) :
    (resp.successful = some true →
      (c.subscribe fid ch cb (.ok resp)).1 = none ∧
      (c.subscribe fid ch cb (.ok resp)).2.subscriptions =
        dictSetNat c.subscriptions ch cb) ∧
    (dictGetNat (dictSetNat c.subscriptions ch cb) ch = some cb) ∧
    (∀ ch2, ch2 ≠ ch → dictGetNat (dictSetNat c.subscriptions ch cb) ch2 =
      dictGetNat c.subscriptions ch2) ∧
    ((c.subscribe fid ch cb (.error e)).2.subscriptions = c.subscriptions) ∧
    (resp.successful = some false →
      (c.subscribe fid ch cb (.ok resp)).2.subscriptions = c.subscriptions) ∧
    (∀ subs (m : Message) (cb0 : Nat), cb0 ∈ subscription_dispatch subs m ↔
      ∃ pat, (pat, cb0) ∈ subs ∧ m.matches pat = true) := by
  have ht := connected_transport_isSome c hc
  refine ⟨?_, dictGetNat_dictSetNat_self _ _ _,
    fun ch2 hne => dictGetNat_dictSetNat_ne _ _ _ _ hne, ?_, ?_, ?_⟩
  · intro hsucc
    constructor <;>
      simp [FayeClient.subscribe, hc, ht, hval, hid, hext, process_outgoing,
        process_incoming, process_incoming_over, hsucc]
  · simp [FayeClient.subscribe, hc, ht, hval, hid, hext, process_outgoing,
      process_incoming, process_incoming_over]
  · intro hsucc
    simp [FayeClient.subscribe, hc, ht, hval, hid, hext, process_outgoing,
      process_incoming, process_incoming_over, hsucc]
  · intro subs m cb0
    simp only [subscription_dispatch, List.mem_map, List.mem_filter]
    constructor
    · rintro ⟨⟨pat, v⟩, ⟨hmem, hmatch⟩, hv⟩
      simp only [] at hv
      subst hv
      exact ⟨pat, hmem, hmatch⟩
    · rintro ⟨pat, hmem, hmatch⟩
      exact ⟨(pat, cb0), ⟨hmem, hmatch⟩, rfl⟩
/-- Witness for C9 amended: the first subscribe on the concrete client
succeeds and stores its callback; a failing subscribe stores nothing. -/
theorem subscription_registry_amended_witness :
    (c9client.subscribe "s1" "/a/b" 0 (.ok subOkResp)).1 = none ∧
    (c9client.subscribe "s1" "/a/b" 0 (.ok subOkResp)).2.subscriptions = [("/a/b", 0)] ∧
    (c9client.subscribe "s1" "/a/b" 0 (.error "io")).2.subscriptions = [] := by
  have h := subscription_registry_amended c9client "s1" "/a/b" 0 subOkResp "io"
    rfl rfl (by decide) rfl
  have hs := h.1 (by decide)
  refine ⟨hs.1, ?_, h.2.2.2.1⟩
  rw [hs.2]
  rfl
